import Mathlib

/-!
Verification of the authentication and quota-gating middleware pipeline of the
AutomateIQ multi-tenant SaaS backend.

The definitions below are a shallow embedding of:
  - backend/src/middleware/auth.js (the auth, authorize, checkSubscription and
    checkAICredits middlewares),
  - generateToken from backend/src/routes/auth.js,
  - the parts of the external jsonwebtoken library and of the User/Organization
    mongoose models that the middleware calls (modelled from the specification,
    since those files are not among the sources).

JavaScript strings are modelled as Lean String values; the JavaScript string
operations the code uses (truthiness, startsWith, substring) are embedded as
explicit functions over the underlying character lists.  Database lookups are
modelled as explicit functions in an environment record, and each middleware is
a pure function from its inputs to an outcome: either a structured HTTP
response or a pass to the next handler.
-/

/-- The shape of every rejection payload produced by the middleware chain:
`{ success, message }` plus the optional extra fields some gates add
(`code`, `requiredPlan`, `currentPlan`, `required`, `available`). -/
structure ResponseBody where
  success : Bool
  message : String
  code : Option String := none
  requiredPlan : Option String := none
  currentPlan : Option String := none
  required : Option Int := none
  available : Option Int := none
  deriving DecidableEq

/-- JavaScript truthiness of an optional string value: `undefined` and the
empty string are both falsy (`!token` in the middleware). -/
def jsTruthy : Option String → Bool
  | none => false
  | some s => s.data ≠ []

/-- JavaScript String.prototype.startsWith, over the character list. -/
def jsStartsWith (s p : String) : Bool :=
  s.data.take p.data.length == p.data

/-- JavaScript String.prototype.substring with a single index argument. -/
def jsSubstring (s : String) (i : Nat) : String :=
  String.mk (s.data.drop i)

/-- Token extraction of the auth middleware (middleware/auth.js lines 8-15):
start from `req.cookies.token`; when that is falsy and `req.headers.authorization`
is truthy and starts with the Bearer scheme, take the header value after the
seven-character prefix. -/
def extractToken (cookieToken authorization : Option String) : Option String :=
  if !(jsTruthy cookieToken) && jsTruthy authorization then
    match authorization with
    | some authHeader =>
      if jsStartsWith authHeader ("Bearer ") then some (jsSubstring authHeader 7)
      else cookieToken
    | none => cookieToken
  else cookieToken

/-- Outcome of the token-extraction phase: either the 401 rejection for a
missing token, or the extracted token string handed to verification. -/
inductive TokenPhase where
  | rejected (status : Nat) (body : ResponseBody)
  | proceed (token : String)
  deriving DecidableEq

/-- Body of the rejection for a request carrying no token. -/
def noTokenBody : ResponseBody :=
  { success := false, message := "Access denied. No token provided." }

/-- The token-extraction phase of the auth middleware (lines 8-22): extract a
token from cookie or header, and reject with 401 when the result is falsy. -/
def authTokenPhase (cookieToken authorization : Option String) : TokenPhase :=
  match extractToken cookieToken authorization with
  | none => .rejected 401 noTokenBody
  | some t => if t.data = [] then .rejected 401 noTokenBody else .proceed t

/-- The payload a verified token decodes to: `{ userId, organizationId }`. -/
structure TokenPayload where
  userId : String
  organizationId : String
  deriving DecidableEq

/-- A signed session token as produced by jwt.sign: the embedded ids, the
absolute expiry (seconds), and the secret it was signed with - the latter
standing for the signature, which matches exactly when the verifier uses the
same secret. -/
structure SignedToken where
  userId : String
  organizationId : String
  exp : Nat
  signedWith : String
  deriving DecidableEq

/-- The two verification errors of the jsonwebtoken library that the
middleware distinguishes by name. -/
inductive JwtError where
  | jsonWebTokenError
  | tokenExpiredError
  deriving DecidableEq

/-- Seconds in the 7-day validity window (`expiresIn: '7d'`). -/
def sevenDaysInSeconds : Nat := 7 * 24 * 60 * 60

/-- generateToken from routes/auth.js lines 26-32: sign `{userId, organizationId}`
with the process secret and a 7-day expiry.  The jwt.sign internals are
modelled from the spec: a signed, tamper-evident token embedding both ids and
an absolute expiry fixed at 7 days from issuance. -/
def generateToken (userId organizationId secret : String) (now : Nat) : SignedToken :=
  { userId := userId, organizationId := organizationId,
    exp := now + sevenDaysInSeconds, signedWith := secret }

/-- Modelled from the spec: jwt.verify of the external jsonwebtoken library.
"fails with InvalidToken if the signature does not match or the structure is
malformed; fails with TokenExpired if the current time is past the embedded
expiry."  The signature check comes first: a signature produced with a
different secret never reaches the expiry comparison. -/
def jwtVerify (token : SignedToken) (secret : String) (now : Nat) :
    Except JwtError TokenPayload :=
  if token.signedWith ≠ secret then .error .jsonWebTokenError
  else if token.exp < now then .error .tokenExpiredError
  else .ok { userId := token.userId, organizationId := token.organizationId }

/-- A User record as the auth middleware reads it (models/User.js is not among
the sources; the fields are those the middleware dereferences). -/
structure User where
  _id : String
  isActive : Bool
  role : String
  email : String
  deriving DecidableEq

/-- The subscription sub-record of an Organization. -/
structure Subscription where
  plan : String
  status : String
  deriving DecidableEq

/-- The limits sub-record of an Organization (only the metered AI-credit
allowance is read by the gates).  The value -1 represents "unlimited", as in
the plan catalogue of routes/billing.js. -/
structure OrgLimits where
  aiCredits : Int
  deriving DecidableEq

/-- The usage sub-record of an Organization. -/
structure OrgUsage where
  aiCredits : Int
  deriving DecidableEq

/-- An Organization record as the middleware reads it. -/
structure Organization where
  _id : String
  isActive : Bool
  subscription : Subscription
  limits : OrgLimits
  usage : OrgUsage
  deriving DecidableEq

/-- The authenticated context the middleware attaches as `req.user`. -/
structure AuthedUser where
  userId : String
  organizationId : String
  role : String
  email : String
  deriving DecidableEq

/-- The environment of one request through the auth middleware: the process
configuration (secret, clock), the database lookups, and whether the
fire-and-forget last-active persistence would succeed. -/
structure AuthEnv where
  jwtSecret : String
  now : Nat
  findUser : String → Option User
  findOrg : String → Option Organization
  lastActiveSaveSucceeds : Bool

/-- Modelled from the spec: User.updateLastActive (models/User.js is not among
the sources) - a best-effort persistence of the last-active timestamp that
either succeeds or fails. -/
def updateLastActive (saveSucceeds : Bool) : Except String Unit :=
  if saveSucceeds then .ok () else .error ("save failed")

/-- Outcome of the verification phase of the auth middleware: attach the
authenticated context and the full Organization record and pass control on, or
respond with a structured rejection. -/
inductive AuthOutcome where
  | attach (user : AuthedUser) (organization : Organization)
  | respond (status : Nat) (body : ResponseBody)
  deriving DecidableEq

/-- Body of the 401 response for a token failing signature verification. -/
def invalidTokenBody : ResponseBody :=
  { success := false, message := "Invalid token." }

/-- Body of the 401 response for an expired token. -/
def tokenExpiredBody : ResponseBody :=
  { success := false, message := "Token expired." }

/-- Body of the 401 response when the user is missing or inactive: one shared
message for both cases. -/
def userNotFoundBody : ResponseBody :=
  { success := false, message := "Invalid token. User not found or inactive." }

/-- Body of the 401 response when the organization is missing or inactive. -/
def orgNotFoundBody : ResponseBody :=
  { success := false, message := "Invalid token. Organization not found or inactive." }

/-- The verification phase of the auth middleware (middleware/auth.js lines
24-79), taking the already-extracted token: verify the signature and expiry,
load the user and the organization and reject when either is missing or
inactive, fire the last-active update without awaiting it - its result is
discarded and cannot alter control flow - and attach the context. -/
def authVerifyPhase (env : AuthEnv) (token : SignedToken) : AuthOutcome :=
  match jwtVerify token env.jwtSecret env.now with
  | .error .jsonWebTokenError => .respond 401 invalidTokenBody
  | .error .tokenExpiredError => .respond 401 tokenExpiredBody
  | .ok decoded =>
    match env.findUser decoded.userId with
    | none => .respond 401 userNotFoundBody
    | some user =>
      if user.isActive = false then .respond 401 userNotFoundBody
      else
        match env.findOrg decoded.organizationId with
        | none => .respond 401 orgNotFoundBody
        | some organization =>
          if organization.isActive = false then .respond 401 orgNotFoundBody
          else
            let _ := updateLastActive env.lastActiveSaveSucceeds
            .attach { userId := user._id, organizationId := organization._id,
                      role := user.role, email := user.email } organization

/-- Outcome of a gate middleware: forward to the next handler or respond. -/
inductive GateOutcome where
  | next
  | respond (status : Nat) (body : ResponseBody)
  deriving DecidableEq

/-- Body of the 401 response of authorize when no context is attached. -/
def authRequiredBody : ResponseBody :=
  { success := false, message := "Access denied. Authentication required." }

/-- Body of the 403 response of authorize for an insufficient role. -/
def forbiddenBody : ResponseBody :=
  { success := false, message := "Access denied. Insufficient permissions." }

/-- The authorize middleware (lines 83-101): 401 without an authenticated
context, 403 when the context role is not in the allowed list, else next. -/
def authorize (roles : List String) (reqUser : Option AuthedUser) : GateOutcome :=
  match reqUser with
  | none => .respond 401 authRequiredBody
  | some u =>
    if roles.contains u.role = false then .respond 403 forbiddenBody
    else .next

/-- The plan rank table of checkSubscription (lines 105-109): a JavaScript
object lookup, `undefined` (none) outside the three keys. -/
def planHierarchy (plan : String) : Option Nat :=
  if plan = "starter" then some 0
  else if plan = "business" then some 1
  else if plan = "enterprise" then some 2
  else none

/-- The JavaScript `<` comparison on two possibly-undefined numbers: any
comparison involving `undefined` is NaN-like and yields false. -/
def jsLtNum : Option Nat → Option Nat → Bool
  | some a, some b => decide (a < b)
  | _, _ => false

/-- Body of the 401 response of the gates when no organization is attached. -/
def orgContextBody : ResponseBody :=
  { success := false, message := "Organization context required." }

/-- Body of the 403 SUBSCRIPTION_REQUIRED response of checkSubscription. -/
def subscriptionRequiredBody : ResponseBody :=
  { success := false, message := "Subscription required. Please upgrade your plan.",
    code := some ("SUBSCRIPTION_REQUIRED") }

/-- Body of the 403 PLAN_UPGRADE_REQUIRED response of checkSubscription,
reporting the required and the current plan. -/
def planUpgradeBody (requiredPlan currentPlan : String) : ResponseBody :=
  { success := false, message := requiredPlan ++ " plan or higher required.",
    code := some ("PLAN_UPGRADE_REQUIRED"),
    requiredPlan := some requiredPlan, currentPlan := some currentPlan }

/-- The checkSubscription gate (lines 104-144): 401 without an organization,
403 SUBSCRIPTION_REQUIRED when the subscription status is not active, 403
PLAN_UPGRADE_REQUIRED when the rank comparison places the current plan
strictly below the required one, else next. -/
def checkSubscription (requiredPlan : String) (reqOrganization : Option Organization) :
    GateOutcome :=
  match reqOrganization with
  | none => .respond 401 orgContextBody
  | some org =>
    let currentPlan := org.subscription.plan
    let subscriptionStatus := org.subscription.status
    if subscriptionStatus ≠ "active" then .respond 403 subscriptionRequiredBody
    else if jsLtNum (planHierarchy currentPlan) (planHierarchy requiredPlan) then
      .respond 403 (planUpgradeBody requiredPlan currentPlan)
    else .next

/-- Modelled from the spec: Organization.canUseAICredits (models/Organization.js
is not among the sources).  "Computes remaining allowance = limits minus usage
of the metered AI credits.  A limits value representing unlimited bypasses the
comparison entirely and always permits"; the gate fails when the remaining
allowance is below the requested cost.  Unlimited is represented by -1, as in
the plan catalogue of routes/billing.js. -/
def canUseAICredits (org : Organization) (credits : Int) : Bool :=
  org.limits.aiCredits == -1 ||
    decide (credits ≤ org.limits.aiCredits - org.usage.aiCredits)

/-- Body of the 403 AI_CREDITS_EXHAUSTED response of checkAICredits, reporting
the requested cost and the available remainder. -/
def aiCreditsBody (required available : Int) : ResponseBody :=
  { success := false, message := "Insufficient AI credits. Please upgrade your plan.",
    code := some ("AI_CREDITS_EXHAUSTED"),
    required := some required, available := some available }

/-- The checkAICredits gate (lines 147-168): 401 without an organization, 403
AI_CREDITS_EXHAUSTED when the organization cannot cover the requested credits,
else next. -/
def checkAICredits (creditsRequired : Int) (reqOrganization : Option Organization) :
    GateOutcome :=
  match reqOrganization with
  | none => .respond 401 orgContextBody
  | some org =>
    if canUseAICredits org creditsRequired = false then
      .respond 403
        (aiCreditsBody creditsRequired (org.limits.aiCredits - org.usage.aiCredits))
    else .next

/-- A sample active user record for concrete instantiations. -/
def sampleUser : User :=
  { _id := ("u1"), isActive := true, role := ("admin"), email := ("a@b.c") }

/-- A sample deactivated user record. -/
def sampleInactiveUser : User :=
  { _id := ("u2"), isActive := false, role := ("staff"), email := ("d@b.c") }

/-- A sample active organization record. -/
def sampleOrg : Organization :=
  { _id := ("o1"), isActive := true,
    subscription := { plan := ("starter"), status := ("active") },
    limits := { aiCredits := 1000 }, usage := { aiCredits := 0 } }

/-- A sample deactivated organization record. -/
def sampleInactiveOrg : Organization :=
  { sampleOrg with _id := ("o9"), isActive := false }

/-- A sample request environment whose lookups find the sample records. -/
def sampleEnv : AuthEnv :=
  { jwtSecret := ("s"), now := 100,
    findUser := fun _ => some sampleUser,
    findOrg := fun _ => some sampleOrg,
    lastActiveSaveSucceeds := true }

/-- A sample token signed with the sample environment's secret. -/
def sampleToken : SignedToken :=
  { userId := ("u1"), organizationId := ("o1"), exp := 604800, signedWith := ("s") }

/-!
Theorems for the frozen claims.
-/

/-- A string whose character list is empty is the empty string. -/
theorem string_of_data_nil (s : String) (h : s.data = []) : s = "" := by
  cases s with
  | mk d => rw [show d = [] from h]

/-- The token phase rejects with the no-token body whenever the extracted
token is absent or empty. -/
theorem authTokenPhase_rejected_of_extract (c a : Option String)
    (h : ∀ t, extractToken c a = some t → t.data = []) :
    authTokenPhase c a = .rejected 401 noTokenBody := by
  unfold authTokenPhase
  cases hE : extractToken c a with
  | none => rfl
  | some t => simp [h t hE]

/-- C1: for every (accountId, tenantId) pair, verifying a token issued for
that pair with the same secret before its expiry returns exactly that pair,
and once the current time is more than 7 days past issuance verification
fails with the token-expired error. -/
theorem token_round_trip (a t secret : String) (issuedAt t1 t2 : Nat)
    (hBefore : t1 < issuedAt + sevenDaysInSeconds)
    (hAfter : issuedAt + sevenDaysInSeconds < t2) :
    jwtVerify (generateToken a t secret issuedAt) secret t1 =
      .ok { userId := a, organizationId := t }
    ∧ jwtVerify (generateToken a t secret issuedAt) secret t2 =
      .error .tokenExpiredError := by
  constructor <;> simp [jwtVerify, generateToken] <;> omega

/-- C1 witness: a concrete round trip at issuance time 0, checked at time 1
and at time 604801 (one second past the 7-day window). -/
theorem token_round_trip_witness :
    jwtVerify (generateToken ("acct1") ("ten1") ("s") 0) ("s") 1 =
      .ok { userId := ("acct1"), organizationId := ("ten1") }
    ∧ jwtVerify (generateToken ("acct1") ("ten1") ("s") 0) ("s") 604801 =
      .error .tokenExpiredError :=
  token_round_trip ("acct1") ("ten1") ("s") 0 1 604801 (by decide) (by decide)

/-- C2: a token signed with a secret different from the verifier's configured
secret makes the middleware respond 401 with the "Invalid token." body - never
the "Token expired." body - regardless of the token's embedded expiry, and
jwt.verify itself reports the signature error, not the expiry error. -/
theorem wrong_secret_invalid (env : AuthEnv) (token : SignedToken)
    (hSecret : token.signedWith ≠ env.jwtSecret) :
    authVerifyPhase env token = .respond 401 invalidTokenBody
    ∧ authVerifyPhase env token ≠ .respond 401 tokenExpiredBody
    ∧ jwtVerify token env.jwtSecret env.now = .error .jsonWebTokenError := by
  have hv : jwtVerify token env.jwtSecret env.now = .error .jsonWebTokenError := by
    simp [jwtVerify, hSecret]
  refine ⟨?_, ?_, hv⟩
  · simp [authVerifyPhase, hv]
  · simp [authVerifyPhase, hv, invalidTokenBody, tokenExpiredBody]

/-- C2 witness: a concrete token signed with a different secret, with an
expiry far in the past, is rejected through the invalid-token branch. -/
theorem wrong_secret_invalid_witness :
    authVerifyPhase
      { jwtSecret := ("right"), now := 999999999,
        findUser := fun _ => none, findOrg := fun _ => none,
        lastActiveSaveSucceeds := true }
      { userId := ("u"), organizationId := ("o"), exp := 0, signedWith := ("wrong") } =
      .respond 401 invalidTokenBody :=
  (wrong_secret_invalid
    { jwtSecret := ("right"), now := 999999999,
      findUser := fun _ => none, findOrg := fun _ => none,
      lastActiveSaveSucceeds := true }
    { userId := ("u"), organizationId := ("o"), exp := 0, signedWith := ("wrong") }
    (by decide)).1

/-- C7: whenever the attached context's role is not a member of the allowed
list, authorize responds 403 with the insufficient-permissions body, whatever
the other context fields hold; with no context attached it responds 401.  The
gate is a pure function of the allowed list and the optional context, so it
touches no other state. -/
theorem role_authorizer (roles : List String) (ctx : AuthedUser)
    (hRole : ctx.role ∉ roles) :
    authorize roles (some ctx) = .respond 403 forbiddenBody
    ∧ authorize roles none = .respond 401 authRequiredBody := by
  constructor
  · simp [authorize, hRole]
  · simp [authorize]

/-- C7 witness: a context with role staff against the allowed list containing
only admin is rejected 403, and a missing context is rejected 401. -/
theorem role_authorizer_witness :
    authorize [("admin")]
      (some { userId := ("u"), organizationId := ("o"),
              role := ("staff"), email := ("e") }) = .respond 403 forbiddenBody
    ∧ authorize [("admin")] none = .respond 401 authRequiredBody :=
  role_authorizer [("admin")]
    { userId := ("u"), organizationId := ("o"), role := ("staff"), email := ("e") }
    (by decide)

/-- C4: the status check precedes and is independent of the tier comparison:
whatever the organization's plan and whatever tier the gate requires, a
subscription status other than active is rejected 403 with the
SUBSCRIPTION_REQUIRED body, and no response of the gate on this input carries
the PLAN_UPGRADE_REQUIRED code. -/
theorem inactive_subscription_rejected (org : Organization) (requiredPlan : String)
    (hStatus : org.subscription.status ≠ "active") :
    checkSubscription requiredPlan (some org) = .respond 403 subscriptionRequiredBody
    ∧ subscriptionRequiredBody.code = some ("SUBSCRIPTION_REQUIRED")
    ∧ ∀ status body, checkSubscription requiredPlan (some org) = .respond status body →
        body.code ≠ some ("PLAN_UPGRADE_REQUIRED") := by
  have hEq : checkSubscription requiredPlan (some org) =
      .respond 403 subscriptionRequiredBody := by
    simp [checkSubscription, hStatus]
  refine ⟨hEq, rfl, ?_⟩
  intro status body hResp
  rw [hEq] at hResp
  cases hResp
  simp [subscriptionRequiredBody]

/-- C4 witness: a past_due organization on the enterprise plan, against a gate
requiring only starter, is rejected with SUBSCRIPTION_REQUIRED. -/
theorem inactive_subscription_rejected_witness :
    checkSubscription ("starter")
      (some { _id := ("o1"), isActive := true,
              subscription := { plan := ("enterprise"), status := ("past_due") },
              limits := { aiCredits := 1000 }, usage := { aiCredits := 0 } }) =
      .respond 403 subscriptionRequiredBody :=
  (inactive_subscription_rejected
    { _id := ("o1"), isActive := true,
      subscription := { plan := ("enterprise"), status := ("past_due") },
      limits := { aiCredits := 1000 }, usage := { aiCredits := 0 } }
    ("starter") (by decide)).1

/-- C5: for an organization with an active subscription whose plan and the
required plan both have ranks in the starter < business < enterprise order,
the gate responds 403 with the PLAN_UPGRADE_REQUIRED body - which carries both
the required and the current plan - exactly when the current rank is strictly
below the required rank, and forwards the request otherwise. -/
theorem plan_tier_gate (org : Organization) (requiredPlan : String) (cr rr : Nat)
    (hStatus : org.subscription.status = "active")
    (hCur : planHierarchy org.subscription.plan = some cr)
    (hReq : planHierarchy requiredPlan = some rr) :
    (cr < rr → checkSubscription requiredPlan (some org) =
        .respond 403 (planUpgradeBody requiredPlan org.subscription.plan))
    ∧ (¬ cr < rr → checkSubscription requiredPlan (some org) = .next)
    ∧ (planUpgradeBody requiredPlan org.subscription.plan).code =
        some ("PLAN_UPGRADE_REQUIRED")
    ∧ (planUpgradeBody requiredPlan org.subscription.plan).requiredPlan =
        some requiredPlan
    ∧ (planUpgradeBody requiredPlan org.subscription.plan).currentPlan =
        some org.subscription.plan := by
  refine ⟨?_, ?_, rfl, rfl, rfl⟩
  · intro hLt
    simp [checkSubscription, hStatus, hCur, hReq, jsLtNum, hLt]
  · intro hGe
    simp [checkSubscription, hStatus, hCur, hReq, jsLtNum, hGe]

/-- C5 witness: an active starter organization against a gate requiring
business is rejected with the PLAN_UPGRADE_REQUIRED body, and the same
organization against a gate requiring starter is forwarded. -/
theorem plan_tier_gate_witness :
    checkSubscription ("business")
      (some { _id := ("o2"), isActive := true,
              subscription := { plan := ("starter"), status := ("active") },
              limits := { aiCredits := 1000 }, usage := { aiCredits := 0 } }) =
      .respond 403 (planUpgradeBody ("business") ("starter"))
    ∧ checkSubscription ("starter")
      (some { _id := ("o2"), isActive := true,
              subscription := { plan := ("starter"), status := ("active") },
              limits := { aiCredits := 1000 }, usage := { aiCredits := 0 } }) = .next :=
  ⟨(plan_tier_gate
      { _id := ("o2"), isActive := true,
        subscription := { plan := ("starter"), status := ("active") },
        limits := { aiCredits := 1000 }, usage := { aiCredits := 0 } }
      ("business") 0 1 rfl (by decide) (by decide)).1 (by decide),
   (plan_tier_gate
      { _id := ("o2"), isActive := true,
        subscription := { plan := ("starter"), status := ("active") },
        limits := { aiCredits := 1000 }, usage := { aiCredits := 0 } }
      ("starter") 0 0 rfl (by decide) (by decide)).2.1 (by decide)⟩

/-- C10: an active organization whose plan is none of starter, business or
enterprise has no entry in the rank table, the strict-below comparison is
false under the JavaScript undefined semantics, and the gate forwards the
request whatever tier it requires. -/
theorem unknown_plan_forwards (org : Organization) (requiredPlan : String)
    (hStatus : org.subscription.status = "active")
    (h1 : org.subscription.plan ≠ "starter")
    (h2 : org.subscription.plan ≠ "business")
    (h3 : org.subscription.plan ≠ "enterprise") :
    planHierarchy org.subscription.plan = none
    ∧ checkSubscription requiredPlan (some org) = .next := by
  have hNone : planHierarchy org.subscription.plan = none := by
    simp [planHierarchy, h1, h2, h3]
  refine ⟨hNone, ?_⟩
  simp [checkSubscription, hStatus, hNone, jsLtNum]

/-- C10 witness: an active organization on the unrecognized plan "free" passes
a gate requiring enterprise. -/
theorem unknown_plan_forwards_witness :
    checkSubscription ("enterprise")
      (some { _id := ("o3"), isActive := true,
              subscription := { plan := ("free"), status := ("active") },
              limits := { aiCredits := 1000 }, usage := { aiCredits := 0 } }) = .next :=
  (unknown_plan_forwards
    { _id := ("o3"), isActive := true,
      subscription := { plan := ("free"), status := ("active") },
      limits := { aiCredits := 1000 }, usage := { aiCredits := 0 } }
    ("enterprise") rfl (by decide) (by decide) (by decide)).2

/-- C6: for a positive cost, an unlimited (-1) credit limit always forwards;
with a bounded limit the gate responds 403 with the AI_CREDITS_EXHAUSTED body
- reporting required = cost and available = limits minus usage - exactly when
the remaining allowance is below the cost, and forwards otherwise. -/
theorem quota_gate (org : Organization) (cost : Int) (_hCost : 0 < cost) :
    (org.limits.aiCredits = -1 → checkAICredits cost (some org) = .next)
    ∧ (org.limits.aiCredits ≠ -1 →
        org.limits.aiCredits - org.usage.aiCredits < cost →
        checkAICredits cost (some org) =
          .respond 403 (aiCreditsBody cost (org.limits.aiCredits - org.usage.aiCredits)))
    ∧ (org.limits.aiCredits ≠ -1 →
        cost ≤ org.limits.aiCredits - org.usage.aiCredits →
        checkAICredits cost (some org) = .next)
    ∧ (aiCreditsBody cost (org.limits.aiCredits - org.usage.aiCredits)).required =
        some cost
    ∧ (aiCreditsBody cost (org.limits.aiCredits - org.usage.aiCredits)).available =
        some (org.limits.aiCredits - org.usage.aiCredits) := by
  refine ⟨?_, ?_, ?_, rfl, rfl⟩
  · intro hUnlimited
    simp [checkAICredits, canUseAICredits, hUnlimited]
  · intro hBounded hShort
    simp [checkAICredits, canUseAICredits, hBounded, hShort, not_le.mpr hShort]
  · intro hBounded hEnough
    simp [checkAICredits, canUseAICredits, hBounded, hEnough]

/-- C6 witness: limit 1000, usage 995, cost 10 is rejected reporting
available 5 and required 10; the same organization with an unlimited (-1)
limit is forwarded. -/
theorem quota_gate_witness :
    checkAICredits 10
      (some { _id := ("o4"), isActive := true,
              subscription := { plan := ("starter"), status := ("active") },
              limits := { aiCredits := 1000 }, usage := { aiCredits := 995 } }) =
      .respond 403 (aiCreditsBody 10 5)
    ∧ checkAICredits 10
      (some { _id := ("o4"), isActive := true,
              subscription := { plan := ("starter"), status := ("active") },
              limits := { aiCredits := -1 }, usage := { aiCredits := 995 } }) = .next := by
  constructor
  · have h := (quota_gate
      { _id := ("o4"), isActive := true,
        subscription := { plan := ("starter"), status := ("active") },
        limits := { aiCredits := 1000 }, usage := { aiCredits := 995 } }
      10 (by decide)).2.1 (by decide) (by decide)
    exact h
  · exact (quota_gate
      { _id := ("o4"), isActive := true,
        subscription := { plan := ("starter"), status := ("active") },
        limits := { aiCredits := -1 }, usage := { aiCredits := 995 } }
      10 (by decide)).1 rfl

/-- C3 counterexample: with the session cookie present carrying the empty
string - which cookie parsing produces for a bare `token=` cookie - the
Authorization header is not ignored: the bearer value is extracted and used,
and removing the header changes the outcome, refuting "if the session cookie
is present its value is used and the Authorization header is ignored". -/
theorem cookie_present_header_not_ignored :
    authTokenPhase (some ("")) (some ("Bearer abc")) = .proceed ("abc")
    ∧ authTokenPhase (some ("")) (some ("Bearer abc")) ≠
        authTokenPhase (some ("")) none := by
  constructor
  · decide
  · decide

/-- C3 amended: a cookie that is present with a non-empty value is used and
the header ignored; a falsy (absent or empty) cookie falls through to a
Bearer-scheme Authorization header whose bearer value, when non-empty, is
used; when neither carrier yields a non-empty token the request is rejected
with status 401 and a success-false body. -/
theorem token_extraction_characterization (cookieToken authorization : Option String) :
    (∀ c, cookieToken = some c → c ≠ "" →
      authTokenPhase cookieToken authorization = .proceed c)
    ∧ (jsTruthy cookieToken = false →
       ∀ h, authorization = some h → jsStartsWith h ("Bearer ") = true →
         jsSubstring h 7 ≠ "" →
         authTokenPhase cookieToken authorization = .proceed (jsSubstring h 7))
    ∧ (jsTruthy cookieToken = false →
       (∀ h, authorization = some h →
          jsStartsWith h ("Bearer ") = false ∨ (jsSubstring h 7).data = []) →
       authTokenPhase cookieToken authorization = .rejected 401 noTokenBody
       ∧ noTokenBody.success = false) := by
  refine ⟨?_, ?_, ?_⟩
  · rintro c rfl hc
    have hcd : c.data ≠ [] := fun hnil => hc (string_of_data_nil c hnil)
    have hT : jsTruthy (some c) = true := by simp [jsTruthy, hcd]
    simp [authTokenPhase, extractToken, hT, hcd]
  · intro hCT h hA hStart hSub
    subst hA
    have hhd : h.data ≠ [] := by
      intro hnil
      simp [jsStartsWith, hnil] at hStart
    have hTa : jsTruthy (some h) = true := by simp [jsTruthy, hhd]
    have hSubd : (jsSubstring h 7).data ≠ [] :=
      fun hnil => hSub (string_of_data_nil _ hnil)
    simp [authTokenPhase, extractToken, hCT, hTa, hStart, hSubd]
  · intro hCT hNo
    refine ⟨?_, rfl⟩
    have hCases : cookieToken = none ∨ ∃ s, cookieToken = some s ∧ s.data = [] := by
      cases cookieToken with
      | none => exact Or.inl rfl
      | some s =>
        refine Or.inr ⟨s, rfl, ?_⟩
        simpa [jsTruthy] using hCT
    have hFromCookie : ∀ t, cookieToken = some t → t.data = [] := by
      intro t ht
      rcases hCases with hN | ⟨s, hS, hsd⟩
      · rw [hN] at ht
        cases ht
      · rw [hS, Option.some.injEq] at ht
        rw [← ht]
        exact hsd
    apply authTokenPhase_rejected_of_extract
    intro t hT
    unfold extractToken at hT
    rw [hCT] at hT
    simp only [Bool.not_false, Bool.true_and] at hT
    cases authorization with
    | none =>
      simp only [jsTruthy, Bool.false_eq_true, if_false] at hT
      exact hFromCookie t hT
    | some h =>
      by_cases hTru : jsTruthy (some h) = true
      · rw [if_pos hTru] at hT
        have hT' : (if jsStartsWith h ("Bearer ") = true
            then some (jsSubstring h 7) else cookieToken) = some t := hT
        by_cases hSt : jsStartsWith h ("Bearer ") = true
        · rw [if_pos hSt, Option.some.injEq] at hT'
          rcases hNo h rfl with hF | hNil
          · rw [hF] at hSt
            exact Bool.noConfusion hSt
          · rw [← hT']
            exact hNil
        · rw [if_neg hSt] at hT'
          exact hFromCookie t hT'
      · rw [if_neg hTru] at hT
        exact hFromCookie t hT

/-- C3 amended witness: a cookie with the non-empty value tok proceeds with
tok whatever the header holds, and with no carriers the request is rejected
401 with the success-false no-token body. -/
theorem token_extraction_characterization_witness :
    authTokenPhase (some ("tok")) (some ("Bearer abc")) = .proceed ("tok")
    ∧ authTokenPhase none none = .rejected 401 noTokenBody
    ∧ noTokenBody.success = false :=
  ⟨(token_extraction_characterization (some ("tok")) (some ("Bearer abc"))).1
      ("tok") rfl (by decide),
   (token_extraction_characterization none none).2.2 rfl
      (fun h hA => by cases hA)⟩

/-- C8: when the token verifies and both the user and the organization are
found and active, a failing last-active persistence - an operation the
middleware fires without awaiting, so its result is discarded - still attaches
the authenticated context and passes control on, and the outcome is the same
as when the persistence succeeds. -/
theorem last_active_best_effort (env : AuthEnv) (token : SignedToken)
    (user : User) (org : Organization)
    (hSig : token.signedWith = env.jwtSecret)
    (hExp : ¬ token.exp < env.now)
    (hUser : env.findUser token.userId = some user)
    (hUserActive : user.isActive = true)
    (hOrg : env.findOrg token.organizationId = some org)
    (hOrgActive : org.isActive = true) :
    authVerifyPhase { env with lastActiveSaveSucceeds := false } token =
      .attach { userId := user._id, organizationId := org._id,
                role := user.role, email := user.email } org
    ∧ updateLastActive false = .error ("save failed")
    ∧ authVerifyPhase { env with lastActiveSaveSucceeds := false } token =
        authVerifyPhase { env with lastActiveSaveSucceeds := true } token := by
  have hv : jwtVerify token env.jwtSecret env.now =
      .ok { userId := token.userId, organizationId := token.organizationId } := by
    simp [jwtVerify, hSig, hExp]
  refine ⟨?_, by simp [updateLastActive], ?_⟩
  · simp [authVerifyPhase, hv, hUser, hUserActive, hOrg, hOrgActive]
  · simp [authVerifyPhase, hv, hUser, hUserActive, hOrg, hOrgActive]

/-- C8 witness: in the sample environment with the persistence forced to
fail, the sample token still yields an attached context. -/
theorem last_active_best_effort_witness :
    authVerifyPhase { sampleEnv with lastActiveSaveSucceeds := false } sampleToken =
      .attach { userId := ("u1"), organizationId := ("o1"),
                role := ("admin"), email := ("a@b.c") } sampleOrg :=
  (last_active_best_effort sampleEnv sampleToken sampleUser sampleOrg
    rfl (by decide) rfl rfl rfl rfl).1

/-- C9: for a verified token, the middleware's rejection when the user lookup
finds nothing equals its rejection when the lookup finds a deactivated user -
one 401 response with one shared body - and the same two-run coincidence holds
for a missing versus deactivated organization. -/
theorem anti_enumeration (env : AuthEnv) (token : SignedToken)
    (badUser activeUser : User) (badOrg : Organization)
    (hSig : token.signedWith = env.jwtSecret)
    (hExp : ¬ token.exp < env.now)
    (hBadUser : badUser.isActive = false)
    (hActiveUser : activeUser.isActive = true)
    (hBadOrg : badOrg.isActive = false) :
    (authVerifyPhase { env with findUser := fun _ => none } token =
        authVerifyPhase { env with findUser := fun _ => some badUser } token
      ∧ authVerifyPhase { env with findUser := fun _ => none } token =
        .respond 401 userNotFoundBody)
    ∧ (authVerifyPhase { env with findUser := fun _ => some activeUser,
                                  findOrg := fun _ => none } token =
        authVerifyPhase { env with findUser := fun _ => some activeUser,
                                   findOrg := fun _ => some badOrg } token
      ∧ authVerifyPhase { env with findUser := fun _ => some activeUser,
                                   findOrg := fun _ => none } token =
        .respond 401 orgNotFoundBody) := by
  have hv : jwtVerify token env.jwtSecret env.now =
      .ok { userId := token.userId, organizationId := token.organizationId } := by
    simp [jwtVerify, hSig, hExp]
  refine ⟨⟨?_, ?_⟩, ?_, ?_⟩
  · simp [authVerifyPhase, hv, hBadUser]
  · simp [authVerifyPhase, hv]
  · simp [authVerifyPhase, hv, hActiveUser, hBadOrg]
  · simp [authVerifyPhase, hv, hActiveUser]

/-- C9 witness: in the sample environment, the missing-user and
deactivated-user runs coincide on the sample token. -/
theorem anti_enumeration_witness :
    authVerifyPhase { sampleEnv with findUser := fun _ => none } sampleToken =
      authVerifyPhase { sampleEnv with findUser := fun _ => some sampleInactiveUser }
        sampleToken
    ∧ authVerifyPhase { sampleEnv with findUser := fun _ => none } sampleToken =
      .respond 401 userNotFoundBody :=
  (anti_enumeration sampleEnv sampleToken sampleInactiveUser sampleUser
    sampleInactiveOrg rfl (by decide) rfl rfl rfl).1
